import Mathlib

set_option linter.unusedVariables false

/-! Verification development for the ESP data-plane transport (`esp.c`):
SPI routing and old-generation replay admission, ESP trailer and padding
validation, LZO decompression dispatch, `esp_setup` / `esp_close` state
handling, and the return-value semantics of the session I/O loop
`esp_mainloop`.  External collaborators (crypto provider, decompression
adapter, keepalive computation, socket) are modelled as oracles supplied
through an environment; the control flow of `esp.c` itself is embedded
faithfully. -/

/-- Modelled from the spec: the numeric encoding of the `dtls_state`
values (`DTLS_DISABLED`, `DTLS_NOSECRET`, `DTLS_SLEEPING`,
`DTLS_CONNECTING`, `DTLS_CONNECTED`) is declared in
`openconnect-internal.h`, which is not among the sources.  Per the spec,
the active states (Sleeping, Connecting, Connected) are exactly the ones
above Disabled, and teardown never forces a state below Disabled, so
NoSecret sits below Disabled in the encoding. -/
inductive DtlsState where
  | noSecret
  | disabled
  | sleeping
  | connecting
  | connected
deriving DecidableEq

/-- Numeric value of a `dtls_state` constant, used by the `>` comparison in
`esp_close`. -/
def DtlsState.toNat : DtlsState → Nat
  | .noSecret => 0
  | .disabled => 1
  | .sleeping => 2
  | .connecting => 3
  | .connected => 4

/-- One generation of ESP session keys (`struct esp`): the Security
Parameter Index as stored (network byte order on both sides of the
comparisons in `esp_mainloop`) and the sequence counter.  The key bytes
belong to the external crypto provider and play no role in the claims.
The counters are modelled as unbounded naturals; their machine widths are
declared in the header outside the sources. -/
structure Esp where
  spi : Nat
  seq : Nat
deriving DecidableEq

/-- Byte-order conversion `ntohl`, byte reversal of a 32-bit value stored
as a `Nat`. -/
def ntohl (x : Nat) : Nat :=
  (x % 256) * 16777216 + (x / 256 % 256) * 65536 +
    (x / 65536 % 256) * 256 + (x / 16777216 % 256)

/-- Which inbound ESP context a decrypt call is made with. -/
inductive CtxSel where
  | current
  | old
deriving DecidableEq

/-- Result of routing an inbound datagram by its SPI (lines 149-164). -/
inductive Route where
  | useCurrent
  | useOld
  | invalid
deriving DecidableEq

/-- SPI routing and old-generation replay admission, from lines 149-164 of
`esp_mainloop`: the current inbound context matches on SPI alone; the
previous context additionally requires
`ntohl(pkt->esp.seq) + esp->seq < vpninfo->old_esp_maxseq`. -/
def routeSpi (pktSpi pktSeq : Nat) (espC espO : Esp) (maxseq : Nat) : Route :=
  if pktSpi = espC.spi then
    Route.useCurrent
  else if pktSpi = espO.spi ∧ ntohl pktSeq + espC.seq < maxseq then
    Route.useOld
  else
    Route.invalid

/-- How `esp_mainloop` disposed of one received datagram. -/
inductive Outcome where
  | dropShort
  | dropInvalidSpi
  | dropDecryptFail
  | dropBadNextHeader
  | dropBadPadLen
  | dropBadPadBytes
  | probeConsumed
  | dropAllocFail
  | dropLzoFail
  | enqueueDecompressed
  | enqueueDirect
deriving DecidableEq

/-- Oracle behaviour of the external `av_lzo1x_decode` adapter on one
invocation: whether it reported an error, the value left in `newlen`
(remaining output space; the adapter only ever decrements it), and the
value left in `pkt->len` (unconsumed input). -/
structure LzoResult where
  err : Bool
  newlenOut : Nat
  residual : Nat
deriving DecidableEq

/-- One inbound datagram together with the oracle answers of the external
collaborators consulted while processing it: the raw SPI and sequence
fields, the byte count returned by `recv`, whether `decrypt_esp_packet`
succeeds, the plaintext bytes it leaves in `pkt->data`, whether
`udp_catch_probe` recognises the packet, the LZO adapter behaviour, and
whether the `malloc` for the decompression output buffer succeeds. -/
structure Datagram where
  spi : Nat
  seq : Nat
  recvLen : Nat
  decryptOk : Bool
  plaintext : List Nat
  isProbe : Bool
  lzo : LzoResult
  newpktAllocOk : Bool
deriving DecidableEq

/-- Observable effects of processing one received datagram in the receive
drain of `esp_mainloop` (lines 143-231). -/
structure ProcResult where
  outcome : Outcome
  decryptedWith : Option CtxSel
  enqueuedLen : Option Nat
  bufferDetached : Bool
  stateOut : DtlsState
  lastRxSet : Bool
  newpktFreed : Bool
deriving DecidableEq

/-- ESP pad-byte validation, from the loop at lines 186-195: the byte at
offset `plen + i` must equal `i + 1` for every `i` below the padding
length. -/
def padBytesOk (data : List Nat) (plen padLen : Nat) : Bool :=
  List.all (List.range padLen) (fun i => data.getD (plen + i) 0 == i + 1)

/-- The Next-Header byte of a decrypted payload, `pkt->data[len - 1]`. -/
def nextHdr (d : Datagram) (len : Nat) : Nat :=
  d.plaintext.getD (len - 1) 0

/-- The padding-length byte of a decrypted payload, `pkt->data[len - 2]`. -/
def padLenOf (d : Datagram) (len : Nat) : Nat :=
  d.plaintext.getD (len - 2) 0

/-- The true payload length after the trailer, `len - 2 - pkt->data[len - 2]`
(the value stored back into `pkt->len` at line 185). -/
def payloadLen (d : Datagram) (len : Nat) : Nat :=
  len - 2 - padLenOf d len

/-- Processing of a routed datagram after the SPI decision: decrypt call,
Next-Header check (lines 171-177), padding-length check (lines 179-184),
pad-byte check (lines 185-195), `last_rx` update, probe interception
(lines 198-207) and payload dispatch (lines 208-231).  `len` is the
payload length after the header and 12-byte trailer are removed. -/
def espAfterRoute (sel : CtxSel) (state : DtlsState) (hasCatchProbe : Bool)
    (rmtu len : Nat) (d : Datagram) : ProcResult :=
  if d.decryptOk = false then
    { outcome := Outcome.dropDecryptFail, decryptedWith := some sel,
      enqueuedLen := none, bufferDetached := false, stateOut := state,
      lastRxSet := false, newpktFreed := false }
  else if nextHdr d len ≠ 0x04 ∧ nextHdr d len ≠ 0x29 ∧ nextHdr d len ≠ 0x05 then
    { outcome := Outcome.dropBadNextHeader, decryptedWith := some sel,
      enqueuedLen := none, bufferDetached := false, stateOut := state,
      lastRxSet := false, newpktFreed := false }
  else if len ≤ 2 + padLenOf d len then
    { outcome := Outcome.dropBadPadLen, decryptedWith := some sel,
      enqueuedLen := none, bufferDetached := false, stateOut := state,
      lastRxSet := false, newpktFreed := false }
  else if padBytesOk d.plaintext (payloadLen d len) (padLenOf d len) = false then
    { outcome := Outcome.dropBadPadBytes, decryptedWith := some sel,
      enqueuedLen := none, bufferDetached := false, stateOut := state,
      lastRxSet := false, newpktFreed := false }
  else if hasCatchProbe = true ∧ d.isProbe = true then
    { outcome := Outcome.probeConsumed, decryptedWith := some sel,
      enqueuedLen := none, bufferDetached := false,
      stateOut := if state = DtlsState.sleeping then DtlsState.connecting else state,
      lastRxSet := true, newpktFreed := false }
  else if nextHdr d len = 0x05 then
    if d.newpktAllocOk = false then
      { outcome := Outcome.dropAllocFail, decryptedWith := some sel,
        enqueuedLen := none, bufferDetached := false, stateOut := state,
        lastRxSet := true, newpktFreed := false }
    else if d.lzo.err = true ∨ d.lzo.residual ≠ 0 then
      { outcome := Outcome.dropLzoFail, decryptedWith := some sel,
        enqueuedLen := none, bufferDetached := false, stateOut := state,
        lastRxSet := true, newpktFreed := true }
    else
      { outcome := Outcome.enqueueDecompressed, decryptedWith := some sel,
        enqueuedLen := some (rmtu - d.lzo.newlenOut), bufferDetached := false,
        stateOut := state, lastRxSet := true, newpktFreed := false }
  else
    { outcome := Outcome.enqueueDirect, decryptedWith := some sel,
      enqueuedLen := some (payloadLen d len), bufferDetached := true, stateOut := state,
      lastRxSet := true, newpktFreed := false }

/-- Full processing of one received datagram (lines 143-231): the short
check against `sizeof(pkt->esp) + 12 = 20` bytes, then SPI routing, then
`espAfterRoute`. -/
def process_datagram (espC espO : Esp) (maxseq : Nat) (state : DtlsState)
    (hasCatchProbe : Bool) (rmtu : Nat) (d : Datagram) : ProcResult :=
  if d.recvLen ≤ 8 + 12 then
    { outcome := Outcome.dropShort, decryptedWith := none, enqueuedLen := none,
      bufferDetached := false, stateOut := state, lastRxSet := false,
      newpktFreed := false }
  else
    match routeSpi d.spi d.seq espC espO maxseq with
    | Route.useCurrent =>
        espAfterRoute CtxSel.current state hasCatchProbe rmtu (d.recvLen - (8 + 12)) d
    | Route.useOld =>
        espAfterRoute CtxSel.old state hasCatchProbe rmtu (d.recvLen - (8 + 12)) d
    | Route.invalid =>
        { outcome := Outcome.dropInvalidSpi, decryptedWith := none,
          enqueuedLen := none, bufferDetached := false, stateOut := state,
          lastRxSet := false, newpktFreed := false }

/-- The session fields of `struct openconnect_info` read or written by
`esp.c`.  Queues hold abstract packet identifiers (outbound) or payload
lengths (inbound); `dtls_pkt` records whether the reusable receive buffer
is currently allocated; the `proto_has*` flags record which optional
transport actions the protocol table provides. -/
structure Session where
  dtls_state : DtlsState
  dtls_fd : Int
  current_esp_in : Bool
  esp_in0 : Esp
  esp_in1 : Esp
  esp_out : Esp
  old_esp_maxseq : Nat
  esp_enc : Nat
  esp_hmac : Nat
  esp_ssl_fallback : Nat
  dtls_pkt : Bool
  incoming_queue : List Nat
  outgoing_queue : List Nat
  monitorReadDtls : Bool
  monitorWriteDtls : Bool
  monitorExceptDtls : Bool
  dtls_need_reconnect : Bool
  new_dtls_started : Nat
  dtls_attempt_period : Nat
  dpd : Nat
  last_rx : Nat
  last_tx : Nat
  mtu : Nat
  pkt_trailer : Nat
  proto_hasSendProbes : Bool
  proto_hasCatchProbe : Bool
  proto_hasClose : Bool
deriving DecidableEq

/-- The current inbound context, `esp_in[current_esp_in]`. -/
def espCur (s : Session) : Esp :=
  if s.current_esp_in then s.esp_in1 else s.esp_in0

/-- The previous inbound context, `esp_in[current_esp_in ^ 1]`. -/
def espOld (s : Session) : Esp :=
  if s.current_esp_in then s.esp_in0 else s.esp_in1

/-- The errno constant `EINVAL`. -/
def EINVAL : Int := 22

/-- Return value of `print_esp_keys` (lines 30-72): `-EINVAL` for an
unsupported cipher or HMAC identifier, otherwise 0.  The hex dumps go to
the trace log and carry no further semantics. -/
def print_esp_keys (s : Session) : Int :=
  if s.esp_enc ≠ 0x02 ∧ s.esp_enc ≠ 0x05 then -EINVAL
  else if s.esp_hmac ≠ 0x01 ∧ s.esp_hmac ≠ 0x02 then -EINVAL
  else 0

/-- External transport actions invoked through the protocol table. -/
inductive Act where
  | sendProbes
  | udpClose
deriving DecidableEq

/-- Embedding of `esp_setup` (lines 74-95): reject Disabled/NoSecret with
`-EINVAL`; otherwise set the DPD interval (the SSL-fallback interval
overrides the attempt period when nonzero), record the attempt period,
dump the keys (return value discarded, as in the source), and invoke the
probe-send action when the protocol provides one.  Returns the result
code, the updated session, and the external actions invoked. -/
def esp_setup (s : Session) (dtls_attempt_period : Nat) : Int × Session × List Act :=
  if s.dtls_state = DtlsState.disabled ∨ s.dtls_state = DtlsState.noSecret then
    (-EINVAL, s, [])
  else
    let dpdNew := if s.esp_ssl_fallback ≠ 0 then s.esp_ssl_fallback else dtls_attempt_period
    let s1 := { s with dpd := dpdNew, dtls_attempt_period := dtls_attempt_period }
    let _ := print_esp_keys s1
    let _ := print_esp_keys s1
    (0, s1, if s1.proto_hasSendProbes then [Act.sendProbes] else [])

/-- Embedding of `esp_close` (lines 300-313): when the socket is open,
close it and stop read/write/exception monitoring; then move any state
above `DTLS_DISABLED` to `DTLS_SLEEPING`. -/
def esp_close (s : Session) : Session :=
  let s1 :=
    if s.dtls_fd ≠ -1 then
      { s with
        dtls_fd := -1
        monitorReadDtls := false
        monitorWriteDtls := false
        monitorExceptDtls := false }
    else s
  if DtlsState.toNat DtlsState.disabled < DtlsState.toNat s1.dtls_state then
    { s1 with dtls_state := DtlsState.sleeping }
  else s1

/-- Modelled from the spec: `ka_check_deadline` is a helper declared in
`openconnect-internal.h`, absent from the sources.  Per the spec it
reports whether the deadline has elapsed and otherwise lowers the mutable
timeout hint to the remaining time in milliseconds. -/
def ka_check_deadline (tmo : Int) (now due : Nat) : Bool × Int :=
  if due ≤ now then (true, tmo)
  else if ((due : Int) - (now : Int)) * 1000 < tmo then
    (false, ((due : Int) - (now : Int)) * 1000)
  else (false, tmo)

/-- Result of the external `keepalive_action` computation, an oracle for
`esp_mainloop` (the computation itself lives outside `esp.c`). -/
inductive KaAction where
  | rekey
  | dpdDead
  | dpd
  | keepalive
  | kaNone
deriving DecidableEq

/-- Outcome of one `send` call on the transport socket: success, a
transient would-block/no-buffer-space failure, or a hard error. -/
inductive SendResult where
  | ok
  | wouldBlock
  | hardErr
deriving DecidableEq

/-- Oracle inputs for one iteration of the receive drain: whether a
`malloc` of the receive buffer would succeed, and what `recv` yields
(`none` for a non-positive return ending the drain). -/
structure RxIter where
  allocOk : Bool
  recv : Option Datagram
deriving DecidableEq

/-- Oracle inputs for one dequeued outbound packet: the
`encrypt_esp_packet` return value and the behaviour of `send`. -/
structure TxIter where
  encLen : Int
  send : SendResult
deriving DecidableEq

/-- Environment of one `esp_mainloop` invocation: the current time, the
receive-drain oracle stream, the `keepalive_action` verdict, and the
per-outbound-packet transmit oracles. -/
structure Env where
  now : Nat
  rxIters : List RxIter
  kaAction : KaAction
  txIters : Nat → TxIter

/-- Accumulated state of the receive drain. -/
structure RxSt where
  s : Session
  workDone : Bool
  recvCalls : Nat
  recvDatagrams : Nat
  decryptCalls : List CtxSel

/-- Initial receive-drain state. -/
def initRxSt (s : Session) : RxSt :=
  { s := s, workDone := false, recvCalls := 0, recvDatagrams := 0, decryptCalls := [] }

/-- Apply the effects of one processed datagram to the drain state:
state transition from probe interception, `last_rx` update, inbound
enqueue, receive-buffer detach, and the decrypt-call trace. -/
def applyProc (now : Nat) (st : RxSt) (pr : ProcResult) : RxSt :=
  { st with
    s := { st.s with
      dtls_state := pr.stateOut,
      last_rx := if pr.lastRxSet then now else st.s.last_rx,
      incoming_queue :=
        st.s.incoming_queue ++ (match pr.enqueuedLen with
          | some l => [l]
          | none => []),
      dtls_pkt := if pr.bufferDetached then false else st.s.dtls_pkt },
    decryptCalls :=
      st.decryptCalls ++ (match pr.decryptedWith with
        | some c => [c]
        | none => []) }

/-- The drain state after the buffer is ensured and `recv` succeeded:
`work_done = 1`, the datagram counted, the buffer present. -/
def rxRecvSt (st : RxSt) : RxSt :=
  { st with
    s := { st.s with dtls_pkt := true },
    recvCalls := st.recvCalls + 1,
    workDone := true,
    recvDatagrams := st.recvDatagrams + 1 }

/-- One full receive iteration on a delivered datagram: count it, process
it against the current and previous inbound contexts, and apply the
effects. -/
def rxStep (rmtu now : Nat) (st : RxSt) (d : Datagram) : RxSt :=
  applyProc now (rxRecvSt st)
    (process_datagram (espCur (rxRecvSt st).s) (espOld (rxRecvSt st).s)
      (rxRecvSt st).s.old_esp_maxseq (rxRecvSt st).s.dtls_state
      (rxRecvSt st).s.proto_hasCatchProbe rmtu d)

/-- The receive drain of `esp_mainloop` (lines 121-232): allocate the
receive buffer when absent (allocation failure ends the drain), read one
datagram (a non-positive `recv` or an exhausted oracle stream ends the
drain), set the work flag, process the datagram, repeat. -/
def rxDrain (rmtu now : Nat) : List RxIter → RxSt → RxSt
  | [], st => st
  | it :: rest, st =>
    if st.s.dtls_pkt = false ∧ it.allocOk = false then
      st
    else
      match it.recv with
      | none =>
        { st with s := { st.s with dtls_pkt := true }, recvCalls := st.recvCalls + 1 }
      | some d => rxDrain rmtu now rest (rxStep rmtu now st d)

/-- Accumulated state of the transmit drain. -/
structure TxSt where
  workDone : Bool
  monitorWrite : Bool
  lastTxSet : Bool
  encryptCalls : Nat
  sent : List Nat
  freed : List Nat
  completed : Nat
  queueLeft : List Nat
  earlyWouldBlock : Bool
deriving DecidableEq

/-- Initial transmit-drain state, after `unmonitor_write_fd` (line 264). -/
def initTxSt (workDone : Bool) : TxSt :=
  { workDone := workDone, monitorWrite := false, lastTxSet := false,
    encryptCalls := 0, sent := [], freed := [], completed := 0,
    queueLeft := [], earlyWouldBlock := false }

/-- Drain state after a dequeued packet hit would-block backpressure
(lines 273-277): write monitoring armed, the packet freed, the rest of
the queue left in place, the drain abandoned. -/
def txBlocked (st : TxSt) (p : Nat) (rest : List Nat) : TxSt :=
  { st with
    encryptCalls := st.encryptCalls + 1
    monitorWrite := true
    freed := st.freed ++ [p]
    queueLeft := rest
    earlyWouldBlock := true }

/-- Drain state after a dequeued packet was dropped (encrypt failure or a
hard send error): freed and counted as work. -/
def txFail (st : TxSt) (p : Nat) : TxSt :=
  { st with
    encryptCalls := st.encryptCalls + 1
    freed := st.freed ++ [p]
    workDone := true
    completed := st.completed + 1 }

/-- Drain state after a dequeued packet was sent successfully: `last_tx`
updated, freed, counted as work. -/
def txOk (st : TxSt) (p : Nat) : TxSt :=
  { st with
    encryptCalls := st.encryptCalls + 1
    lastTxSet := true
    freed := st.freed ++ [p]
    sent := st.sent ++ [p]
    workDone := true
    completed := st.completed + 1 }

/-- The transmit drain of `esp_mainloop` (lines 265-295): dequeue, encrypt,
send.  A would-block send arms write monitoring, frees the dequeued packet
and returns at once with the rest of the queue intact; a hard send error
or a non-positive encrypt result just drops the packet; every completed
packet is freed and counts as work. -/
def txDrain (env : Nat → TxIter) : Nat → List Nat → TxSt → TxSt
  | _, [], st => { st with queueLeft := [] }
  | k, p :: rest, st =>
    if 0 < (env k).encLen then
      match (env k).send with
      | SendResult.wouldBlock => txBlocked st p rest
      | SendResult.hardErr => txDrain env (k + 1) rest (txFail st p)
      | SendResult.ok => txDrain env (k + 1) rest (txOk st p)
    else
      txDrain env (k + 1) rest (txFail st p)

/-- Observable result of one `esp_mainloop` invocation: the return value,
the updated session and timeout hint, the external actions invoked in
order, and traces of the work performed. -/
structure MLResult where
  ret : Int
  s : Session
  tmo : Int
  actions : List Act
  recvCalls : Nat
  recvDatagrams : Nat
  decryptCalls : List CtxSel
  kaEvaluated : Bool
  encryptCalls : Nat
  sent : List Nat
  freed : List Nat
  completed : Nat
  earlyWouldBlock : Bool

/-- The Sleeping-state probe prologue of `esp_mainloop` (lines 110-117):
when Sleeping, check the probe deadline (which may lower the timeout
hint) and send probes if it elapsed or a reconnect is pending. -/
def espPrologue (s : Session) (env : Env) (tmo : Int) : List Act × Int :=
  if s.dtls_state = DtlsState.sleeping then
    let cd := ka_check_deadline tmo env.now (s.new_dtls_started + s.dtls_attempt_period)
    if cd.1 = true ∨ s.dtls_need_reconnect = true then
      ((if s.proto_hasSendProbes then [Act.sendProbes] else []), cd.2)
    else ([], cd.2)
  else ([], tmo)

/-- The receive phase of `esp_mainloop`: the drain run with the buffer
size `max(2048, mtu + 256)` of line 108. -/
def espRxPhase (s : Session) (env : Env) : RxSt :=
  rxDrain (max 2048 (s.mtu + 256)) env.now env.rxIters (initRxSt s)

/-- Whether the keepalive dispatch alone counts as work: only the
`KA_DPD` case sets `work_done` (line 254). -/
def espKaWork (env : Env) : Bool :=
  if env.kaAction = KaAction.dpd then true else false

/-- The external actions invoked by the keepalive dispatch in the cases
that fall through to the transmit drain. -/
def espKaActs (s2 : Session) (env : Env) : List Act :=
  if env.kaAction = KaAction.dpd then
    (if s2.proto_hasSendProbes then [Act.sendProbes] else [])
  else []

/-- The transmit phase of `esp_mainloop`: the drain run on the outbound
queue left after the receive phase, starting from the work flag
accumulated so far. -/
def espTxPhase (s : Session) (env : Env) : TxSt :=
  txDrain env.txIters 0 (espRxPhase s env).s.outgoing_queue
    (initTxSt ((espRxPhase s env).workDone || espKaWork env))

/-- Result of `esp_mainloop` when the transport socket is closed
(lines 118-119): return 0 with the session untouched; only the prologue
ran. -/
def mlClosed (s : Session) (env : Env) (tmo : Int) : MLResult :=
  { ret := 0, s := s, tmo := (espPrologue s env tmo).2,
    actions := (espPrologue s env tmo).1, recvCalls := 0,
    recvDatagrams := 0, decryptCalls := [], kaEvaluated := false,
    encryptCalls := 0, sent := [], freed := [], completed := 0,
    earlyWouldBlock := false }

/-- Result of `esp_mainloop` when the state after the receive drain is
not `DTLS_CONNECTED` (lines 234-235): return 0, discarding the work
flag; the keepalive dispatch and transmit drain never run. -/
def mlNotConnected (s : Session) (env : Env) (tmo : Int) : MLResult :=
  { ret := 0, s := (espRxPhase s env).s, tmo := (espPrologue s env tmo).2,
    actions := (espPrologue s env tmo).1,
    recvCalls := (espRxPhase s env).recvCalls,
    recvDatagrams := (espRxPhase s env).recvDatagrams,
    decryptCalls := (espRxPhase s env).decryptCalls, kaEvaluated := false,
    encryptCalls := 0, sent := [], freed := [], completed := 0,
    earlyWouldBlock := false }

/-- Result of `esp_mainloop` on a dead-peer verdict (lines 242-248):
invoke the close action, then the probe-send action, and return 1 at
once; the transmit drain never runs. -/
def mlDead (s : Session) (env : Env) (tmo : Int) : MLResult :=
  { ret := 1, s := (espRxPhase s env).s, tmo := (espPrologue s env tmo).2,
    actions := (espPrologue s env tmo).1
      ++ (if (espRxPhase s env).s.proto_hasClose then [Act.udpClose] else [])
      ++ (if (espRxPhase s env).s.proto_hasSendProbes then [Act.sendProbes] else []),
    recvCalls := (espRxPhase s env).recvCalls,
    recvDatagrams := (espRxPhase s env).recvDatagrams,
    decryptCalls := (espRxPhase s env).decryptCalls, kaEvaluated := true,
    encryptCalls := 0, sent := [], freed := [], completed := 0,
    earlyWouldBlock := false }

/-- Result of a full `esp_mainloop` pass reaching the transmit drain:
`unmonitor_write_fd`, then the drain, whose effects are folded back into
the session. -/
def mlRun (s : Session) (env : Env) (tmo : Int) : MLResult :=
  { ret := if (espTxPhase s env).workDone then 1 else 0,
    s := { (espRxPhase s env).s with
      monitorWriteDtls := (espTxPhase s env).monitorWrite
      outgoing_queue := (espTxPhase s env).queueLeft
      last_tx := if (espTxPhase s env).lastTxSet then env.now
                 else (espRxPhase s env).s.last_tx },
    tmo := (espPrologue s env tmo).2,
    actions := (espPrologue s env tmo).1 ++ espKaActs (espRxPhase s env).s env,
    recvCalls := (espRxPhase s env).recvCalls,
    recvDatagrams := (espRxPhase s env).recvDatagrams,
    decryptCalls := (espRxPhase s env).decryptCalls, kaEvaluated := true,
    encryptCalls := (espTxPhase s env).encryptCalls,
    sent := (espTxPhase s env).sent, freed := (espTxPhase s env).freed,
    completed := (espTxPhase s env).completed,
    earlyWouldBlock := (espTxPhase s env).earlyWouldBlock }

/-- Embedding of `esp_mainloop` (lines 97-298): Sleeping-state probe
prologue, closed-socket early return, receive drain, the
`DTLS_CONNECTED` gate of lines 234-235 (which returns 0 and discards the
work flag), the `keepalive_action` dispatch of lines 237-263 (dead peer:
close, probe, return 1 before ever reaching the transmit drain), then
`unmonitor_write_fd` and the transmit drain.  The timeout update of the
external `keepalive_action` computation is abstracted away. -/
def esp_mainloop (s : Session) (env : Env) (tmo : Int) : MLResult :=
  if s.dtls_fd = -1 then mlClosed s env tmo
  else if (espRxPhase s env).s.dtls_state ≠ DtlsState.connected then
    mlNotConnected s env tmo
  else if env.kaAction = KaAction.dpdDead then mlDead s env tmo
  else mlRun s env tmo

/-- A transmit oracle whose packets all fail to encrypt; used where the
transmit drain is irrelevant. -/
def txNone : Nat → TxIter :=
  fun _ => { encLen := 0, send := SendResult.hardErr }

/-- A transmit oracle where every send hits transient backpressure. -/
def txBlock : Nat → TxIter :=
  fun _ => { encLen := 5, send := SendResult.wouldBlock }

/-- A concrete session used to instantiate the theorems on explicit
inputs. -/
def baseS : Session :=
  { dtls_state := DtlsState.connected, dtls_fd := 0, current_esp_in := false,
    esp_in0 := { spi := 7, seq := 10 }, esp_in1 := { spi := 11, seq := 3 },
    esp_out := { spi := 13, seq := 0 }, old_esp_maxseq := 100,
    esp_enc := 2, esp_hmac := 1, esp_ssl_fallback := 0, dtls_pkt := false,
    incoming_queue := [], outgoing_queue := [], monitorReadDtls := false,
    monitorWriteDtls := false, monitorExceptDtls := false,
    dtls_need_reconnect := false, new_dtls_started := 0,
    dtls_attempt_period := 10, dpd := 0, last_rx := 0, last_tx := 0,
    mtu := 1500, pkt_trailer := 16, proto_hasSendProbes := true,
    proto_hasCatchProbe := false, proto_hasClose := true }

/-- Concrete current inbound context, matching `baseS`. -/
def espCex : Esp := { spi := 7, seq := 10 }

/-- Concrete previous inbound context, matching `baseS`. -/
def espOex : Esp := { spi := 11, seq := 3 }

/-- A datagram for the previous SPI whose sequence sum is inside the
replay ceiling: `ntohl 83886080 = 5` and `5 + 10 < 100`. -/
def dOldOk : Datagram :=
  { spi := 11, seq := 83886080, recvLen := 30, decryptOk := true,
    plaintext := [1, 2, 3, 4, 5, 6, 7, 8, 0, 4], isProbe := false,
    lzo := { err := false, newlenOut := 0, residual := 0 }, newpktAllocOk := true }

/-- A datagram for the previous SPI exactly at the replay ceiling:
`ntohl 1509949440 = 90` and `90 + 10 = 100`. -/
def dOldEdge : Datagram :=
  { spi := 11, seq := 1509949440, recvLen := 30, decryptOk := true,
    plaintext := [1, 2, 3, 4, 5, 6, 7, 8, 0, 4], isProbe := false,
    lzo := { err := false, newlenOut := 0, residual := 0 }, newpktAllocOk := true }

/-- A datagram whose 4-byte payload fails the padding-length bound:
padding length 9 with payload length 4. -/
def dBadPadLen : Datagram :=
  { spi := 7, seq := 0, recvLen := 24, decryptOk := true,
    plaintext := [1, 2, 9, 4], isProbe := false,
    lzo := { err := false, newlenOut := 0, residual := 0 }, newpktAllocOk := true }

/-- A datagram whose pad bytes are wrong: padding length 2 but pad bytes
9, 9 instead of 1, 2. -/
def dBadPadBytes : Datagram :=
  { spi := 7, seq := 0, recvLen := 25, decryptOk := true,
    plaintext := [0, 9, 9, 2, 4], isProbe := false,
    lzo := { err := false, newlenOut := 0, residual := 0 }, newpktAllocOk := true }

/-- A compressed (Next-Header 0x05) datagram whose decompression succeeds
with 48 bytes of output space left: the enqueued payload is
`2048 - 48 = 2000` bytes, larger than the negotiated MTU of 1500. -/
def dLzoBig : Datagram :=
  { spi := 7, seq := 0, recvLen := 23, decryptOk := true,
    plaintext := [9, 0, 5], isProbe := false,
    lzo := { err := false, newlenOut := 48, residual := 0 }, newpktAllocOk := true }

/-- A 5-byte datagram: received (so work was done) but dropped as too
short before any further processing. -/
def dShort : Datagram :=
  { spi := 9, seq := 0, recvLen := 5, decryptOk := false,
    plaintext := [], isProbe := false,
    lzo := { err := false, newlenOut := 0, residual := 0 }, newpktAllocOk := true }

/-- Environment delivering one short datagram and no keepalive action. -/
def envShort : Env :=
  { now := 0, rxIters := [{ allocOk := true, recv := some dShort }],
    kaAction := KaAction.kaNone, txIters := txNone }

/-- Environment delivering the oversized-decompression datagram. -/
def envLzoBig : Env :=
  { now := 0, rxIters := [{ allocOk := true, recv := some dLzoBig }],
    kaAction := KaAction.kaNone, txIters := txNone }

/-- Environment with an idle socket and no keepalive action. -/
def envIdle : Env :=
  { now := 0, rxIters := [], kaAction := KaAction.kaNone, txIters := txNone }

/-- Environment with an idle socket whose first send would block. -/
def envBlock : Env :=
  { now := 0, rxIters := [], kaAction := KaAction.kaNone, txIters := txBlock }

/-- Environment with an idle socket and a dead-peer verdict. -/
def envDead : Env :=
  { now := 0, rxIters := [], kaAction := KaAction.dpdDead, txIters := txNone }

/-- Environment for a Sleeping session whose probe deadline has elapsed. -/
def envLate : Env :=
  { now := 100, rxIters := [], kaAction := KaAction.kaNone, txIters := txNone }

/-- A Sleeping session with a closed transport socket. -/
def sSleep : Session :=
  { baseS with dtls_state := DtlsState.sleeping, dtls_fd := -1 }

/-- A session that is Connecting, not Connected. -/
def sConnecting : Session :=
  { baseS with dtls_state := DtlsState.connecting }

/-- A connected session with two queued outbound packets. -/
def sQueue : Session :=
  { baseS with outgoing_queue := [42, 43] }

theorem espAfterRoute_decryptedWith (sel : CtxSel) (state : DtlsState) (hcp : Bool)
    (rmtu len : Nat) (d : Datagram) :
    (espAfterRoute sel state hcp rmtu len d).decryptedWith = some sel := by
  unfold espAfterRoute
  split_ifs <;> rfl

theorem espAfterRoute_stateOut (sel : CtxSel) (state : DtlsState) (hcp : Bool)
    (rmtu len : Nat) (d : Datagram) (h : state ≠ DtlsState.sleeping) :
    (espAfterRoute sel state hcp rmtu len d).stateOut = state := by
  unfold espAfterRoute
  split_ifs <;> simp_all

theorem process_datagram_stateOut (espC espO : Esp) (maxseq : Nat) (state : DtlsState)
    (hcp : Bool) (rmtu : Nat) (d : Datagram) (h : state ≠ DtlsState.sleeping) :
    (process_datagram espC espO maxseq state hcp rmtu d).stateOut = state := by
  unfold process_datagram
  split
  · rfl
  · split
    · exact espAfterRoute_stateOut _ _ _ _ _ _ h
    · exact espAfterRoute_stateOut _ _ _ _ _ _ h
    · rfl

theorem padBytesOk_iff (data : List Nat) (plen padLen : Nat) :
    padBytesOk data plen padLen = true ↔
      ∀ i, i < padLen → data.getD (plen + i) 0 = i + 1 := by
  simp [padBytesOk, List.all_eq_true, List.mem_range]

theorem rxDrain_frame (rmtu now : Nat) (l : List RxIter) (st : RxSt) :
    (rxDrain rmtu now l st).s.outgoing_queue = st.s.outgoing_queue ∧
    (rxDrain rmtu now l st).s.proto_hasClose = st.s.proto_hasClose ∧
    (rxDrain rmtu now l st).s.proto_hasSendProbes = st.s.proto_hasSendProbes ∧
    (rxDrain rmtu now l st).s.dtls_fd = st.s.dtls_fd := by
  induction l generalizing st with
  | nil => exact ⟨rfl, rfl, rfl, rfl⟩
  | cons it rest ih =>
    rw [rxDrain]
    split
    · exact ⟨rfl, rfl, rfl, rfl⟩
    · cases hr : it.recv with
      | none => exact ⟨rfl, rfl, rfl, rfl⟩
      | some d => exact ih _

theorem rxDrain_connected (rmtu now : Nat) (l : List RxIter) (st : RxSt)
    (h : st.s.dtls_state = DtlsState.connected) :
    (rxDrain rmtu now l st).s.dtls_state = DtlsState.connected := by
  induction l generalizing st with
  | nil => exact h
  | cons it rest ih =>
    rw [rxDrain]
    split
    · exact h
    · cases hr : it.recv with
      | none => exact h
      | some d =>
        apply ih
        show (process_datagram _ _ _ (rxRecvSt st).s.dtls_state _ _ _).stateOut = DtlsState.connected
        rw [show (rxRecvSt st).s.dtls_state = DtlsState.connected from h]
        exact process_datagram_stateOut _ _ _ _ _ _ _ (by simp)

theorem rxDrain_recvDatagrams_mono (rmtu now : Nat) (l : List RxIter) (st : RxSt) :
    st.recvDatagrams ≤ (rxDrain rmtu now l st).recvDatagrams := by
  induction l generalizing st with
  | nil => exact Nat.le_refl _
  | cons it rest ih =>
    rw [rxDrain]
    split
    · exact Nat.le_refl _
    · cases hr : it.recv with
      | none => exact Nat.le_refl _
      | some d =>
        show st.recvDatagrams ≤ (rxDrain rmtu now rest (rxStep rmtu now st d)).recvDatagrams
        exact Nat.le_trans (Nat.le_succ _) (ih (rxStep rmtu now st d))

theorem rxDrain_workDone_iff (rmtu now : Nat) (l : List RxIter) (st : RxSt) :
    (rxDrain rmtu now l st).workDone = true ↔
      (st.workDone = true ∨ st.recvDatagrams < (rxDrain rmtu now l st).recvDatagrams) := by
  induction l generalizing st with
  | nil => simp [rxDrain]
  | cons it rest ih =>
    rw [rxDrain]
    split
    · simp
    · cases hr : it.recv with
      | none => simp
      | some d =>
        show (rxDrain rmtu now rest (rxStep rmtu now st d)).workDone = true ↔
          (st.workDone = true ∨
            st.recvDatagrams < (rxDrain rmtu now rest (rxStep rmtu now st d)).recvDatagrams)
        rw [ih (rxStep rmtu now st d)]
        have hm := rxDrain_recvDatagrams_mono rmtu now rest (rxStep rmtu now st d)
        have hstep : (rxStep rmtu now st d).recvDatagrams = st.recvDatagrams + 1 := rfl
        rw [hstep] at hm
        constructor
        · intro hw
          exact Or.inr (Nat.lt_of_lt_of_le (Nat.lt_succ_self _) hm)
        · intro hw
          exact Or.inl rfl

theorem txDrain_completed_mono (env : Nat → TxIter) (q : List Nat) (k : Nat) (st : TxSt) :
    st.completed ≤ (txDrain env k q st).completed := by
  induction q generalizing k st with
  | nil => exact Nat.le_refl _
  | cons p rest ih =>
    rw [txDrain]
    split
    · cases hs : (env k).send with
      | wouldBlock =>
        show st.completed ≤ (txBlocked st p rest).completed
        exact Nat.le_refl _
      | hardErr =>
        show st.completed ≤ (txDrain env (k + 1) rest (txFail st p)).completed
        exact Nat.le_trans (Nat.le_succ _) (ih (k + 1) (txFail st p))
      | ok =>
        show st.completed ≤ (txDrain env (k + 1) rest (txOk st p)).completed
        exact Nat.le_trans (Nat.le_succ _) (ih (k + 1) (txOk st p))
    · exact Nat.le_trans (Nat.le_succ _) (ih (k + 1) (txFail st p))

theorem txDrain_workDone_iff (env : Nat → TxIter) (q : List Nat) (k : Nat) (st : TxSt) :
    (txDrain env k q st).workDone = true ↔
      (st.workDone = true ∨ st.completed < (txDrain env k q st).completed) := by
  induction q generalizing k st with
  | nil => simp [txDrain]
  | cons p rest ih =>
    rw [txDrain]
    split
    · cases hs : (env k).send with
      | wouldBlock =>
        show (txBlocked st p rest).workDone = true ↔
          (st.workDone = true ∨ st.completed < (txBlocked st p rest).completed)
        simp [txBlocked]
      | hardErr =>
        show (txDrain env (k + 1) rest (txFail st p)).workDone = true ↔
          (st.workDone = true ∨
            st.completed < (txDrain env (k + 1) rest (txFail st p)).completed)
        rw [ih (k + 1) (txFail st p)]
        have hm := txDrain_completed_mono env rest (k + 1) (txFail st p)
        have hstep : (txFail st p).completed = st.completed + 1 := rfl
        rw [hstep] at hm
        constructor
        · intro hw
          exact Or.inr (Nat.lt_of_lt_of_le (Nat.lt_succ_self _) hm)
        · intro hw
          exact Or.inl rfl
      | ok =>
        show (txDrain env (k + 1) rest (txOk st p)).workDone = true ↔
          (st.workDone = true ∨
            st.completed < (txDrain env (k + 1) rest (txOk st p)).completed)
        rw [ih (k + 1) (txOk st p)]
        have hm := txDrain_completed_mono env rest (k + 1) (txOk st p)
        have hstep : (txOk st p).completed = st.completed + 1 := rfl
        rw [hstep] at hm
        constructor
        · intro hw
          exact Or.inr (Nat.lt_of_lt_of_le (Nat.lt_succ_self _) hm)
        · intro hw
          exact Or.inl rfl
    · rw [ih (k + 1) (txFail st p)]
      have hm := txDrain_completed_mono env rest (k + 1) (txFail st p)
      have hstep : (txFail st p).completed = st.completed + 1 := rfl
      rw [hstep] at hm
      constructor
      · intro hw
        exact Or.inr (Nat.lt_of_lt_of_le (Nat.lt_succ_self _) hm)
      · intro hw
        exact Or.inl rfl

/-- C7: `esp_setup` returns `-EINVAL` exactly when the session state is
Disabled or NoSecret, and it never changes `dtls_state`, whether it
succeeds or fails. -/
theorem esp_setup_invalid_state (s : Session) (p : Nat) :
    ((esp_setup s p).1 = -EINVAL ↔
      (s.dtls_state = DtlsState.disabled ∨ s.dtls_state = DtlsState.noSecret)) ∧
    (esp_setup s p).2.1.dtls_state = s.dtls_state := by
  unfold esp_setup
  split_ifs with h h2
  · simp [h]
  all_goals
    refine ⟨⟨fun h0 => ?_, fun hd => absurd hd h⟩, rfl⟩
    have h0x : (0 : Int) = -EINVAL := h0
    exact absurd h0x (by decide)

/-- C8: `esp_close` closes an open socket and stops read, write and
exception monitoring; the state moves to Sleeping exactly when it was one
of the active states Sleeping, Connecting, Connected; an inactive state
(Disabled or NoSecret) is left unchanged, and the state never ends up
below Disabled unless it already started there. -/
theorem esp_close_semantics (s : Session) :
    (s.dtls_fd ≠ -1 →
      (esp_close s).dtls_fd = -1 ∧ (esp_close s).monitorReadDtls = false ∧
      (esp_close s).monitorWriteDtls = false ∧ (esp_close s).monitorExceptDtls = false) ∧
    ((esp_close s).dtls_state = DtlsState.sleeping ↔
      (s.dtls_state = DtlsState.sleeping ∨ s.dtls_state = DtlsState.connecting ∨
        s.dtls_state = DtlsState.connected)) ∧
    ((s.dtls_state = DtlsState.disabled ∨ s.dtls_state = DtlsState.noSecret) →
      (esp_close s).dtls_state = s.dtls_state) ∧
    (DtlsState.toNat (esp_close s).dtls_state < DtlsState.toNat DtlsState.disabled →
      (esp_close s).dtls_state = s.dtls_state) := by
  unfold esp_close
  cases hst : s.dtls_state <;> split_ifs <;> simp_all [DtlsState.toNat]

/-- Witness for C8 on a connected session with an open socket. -/
theorem esp_close_semantics_witness :
    (esp_close baseS).dtls_fd = -1 ∧ (esp_close baseS).dtls_state = DtlsState.sleeping := by
  refine ⟨((esp_close_semantics baseS).1 (by decide)).1, ?_⟩
  exact (esp_close_semantics baseS).2.1.mpr (by decide)

theorem espPrologue_silent (s : Session) (env : Env) (tmo : Int)
    (h : s.dtls_state ≠ DtlsState.sleeping) :
    (espPrologue s env tmo).1 = [] := by
  unfold espPrologue
  rw [if_neg h]

theorem espPrologue_probe (s : Session) (env : Env) (tmo : Int)
    (hsl : s.dtls_state = DtlsState.sleeping)
    (hdue : s.new_dtls_started + s.dtls_attempt_period ≤ env.now ∨
      s.dtls_need_reconnect = true)
    (hpr : s.proto_hasSendProbes = true) :
    (espPrologue s env tmo).1 = [Act.sendProbes] := by
  have hcd : (ka_check_deadline tmo env.now
      (s.new_dtls_started + s.dtls_attempt_period)).1 = true ∨
      s.dtls_need_reconnect = true := by
    rcases hdue with hdue | hrc
    · left
      unfold ka_check_deadline
      rw [if_pos hdue]
    · right
      exact hrc
  simp only [espPrologue]
  rw [if_pos hsl, if_pos hcd]
  simp [hpr]

/-- C9: with the transport socket closed, `esp_mainloop` returns 0 and
performs no receive drain, keepalive evaluation or transmit drain, and
leaves the session untouched; but the Sleeping-state probe step has
already run, so a Sleeping session with an elapsed probe deadline or a
pending reconnect flag still sends probes. -/
theorem mainloop_closed_fd (s : Session) (env : Env) (tmo : Int)
    (hfd : s.dtls_fd = -1) :
    (esp_mainloop s env tmo).ret = 0 ∧
    (esp_mainloop s env tmo).s = s ∧
    (esp_mainloop s env tmo).recvCalls = 0 ∧
    (esp_mainloop s env tmo).kaEvaluated = false ∧
    (esp_mainloop s env tmo).encryptCalls = 0 ∧
    (esp_mainloop s env tmo).sent = [] ∧
    (s.dtls_state = DtlsState.sleeping →
      (s.new_dtls_started + s.dtls_attempt_period ≤ env.now ∨
        s.dtls_need_reconnect = true) →
      s.proto_hasSendProbes = true →
      (esp_mainloop s env tmo).actions = [Act.sendProbes]) := by
  unfold esp_mainloop
  rw [if_pos hfd]
  refine ⟨rfl, rfl, rfl, rfl, rfl, rfl, ?_⟩
  intro hsl hdue hpr
  exact espPrologue_probe s env tmo hsl hdue hpr

/-- Witness for C9: a Sleeping session with closed socket and elapsed
deadline returns 0 yet sends a probe. -/
theorem mainloop_closed_fd_witness :
    (esp_mainloop sSleep envLate 1000).ret = 0 ∧
    (esp_mainloop sSleep envLate 1000).actions = [Act.sendProbes] := by
  refine ⟨(mainloop_closed_fd sSleep envLate 1000 (by decide)).1, ?_⟩
  exact (mainloop_closed_fd sSleep envLate 1000 (by decide)).2.2.2.2.2.2
    (by decide) (Or.inl (by decide)) (by decide)

/-- C10: on a dead-peer verdict, `esp_mainloop` invokes the close action
then the probe-send action and returns 1 immediately: no packet is
encrypted or sent, nothing is freed, and the outbound queue is left
exactly as it was. -/
theorem dpd_dead_skips_tx (s : Session) (env : Env) (tmo : Int)
    (hfd : s.dtls_fd ≠ -1) (hst : s.dtls_state = DtlsState.connected)
    (hka : env.kaAction = KaAction.dpdDead)
    (hclose : s.proto_hasClose = true) (hprobe : s.proto_hasSendProbes = true) :
    (esp_mainloop s env tmo).ret = 1 ∧
    (esp_mainloop s env tmo).actions = [Act.udpClose, Act.sendProbes] ∧
    (esp_mainloop s env tmo).encryptCalls = 0 ∧
    (esp_mainloop s env tmo).sent = [] ∧
    (esp_mainloop s env tmo).freed = [] ∧
    (esp_mainloop s env tmo).s.outgoing_queue = s.outgoing_queue ∧
    (esp_mainloop s env tmo).kaEvaluated = true := by
  have hconn : (espRxPhase s env).s.dtls_state = DtlsState.connected :=
    rxDrain_connected _ _ _ _ hst
  have hfr := rxDrain_frame (max 2048 (s.mtu + 256)) env.now env.rxIters (initRxSt s)
  unfold esp_mainloop
  rw [if_neg hfd, if_neg (fun hne => hne hconn), if_pos hka]
  have hpro : (espPrologue s env tmo).1 = [] :=
    espPrologue_silent s env tmo (by rw [hst]; decide)
  refine ⟨rfl, ?_, rfl, rfl, rfl, ?_, rfl⟩
  · show (espPrologue s env tmo).1
      ++ (if (espRxPhase s env).s.proto_hasClose then [Act.udpClose] else [])
      ++ (if (espRxPhase s env).s.proto_hasSendProbes then [Act.sendProbes] else [])
      = [Act.udpClose, Act.sendProbes]
    have hc : (espRxPhase s env).s.proto_hasClose = s.proto_hasClose := hfr.2.1
    have hp : (espRxPhase s env).s.proto_hasSendProbes = s.proto_hasSendProbes :=
      hfr.2.2.1
    rw [hpro, hc, hp, hclose, hprobe]
    simp
  · show (espRxPhase s env).s.outgoing_queue = s.outgoing_queue
    exact hfr.1

/-- Witness for C10 on a connected session with two queued outbound
packets. -/
theorem dpd_dead_skips_tx_witness :
    (esp_mainloop sQueue envDead 1000).ret = 1 ∧
    (esp_mainloop sQueue envDead 1000).s.outgoing_queue = sQueue.outgoing_queue := by
  refine ⟨(dpd_dead_skips_tx sQueue envDead 1000 (by decide) (by decide) (by decide)
    (by decide) (by decide)).1, ?_⟩
  exact (dpd_dead_skips_tx sQueue envDead 1000 (by decide) (by decide) (by decide)
    (by decide) (by decide)).2.2.2.2.2.1

/-- C1: for an inbound datagram long enough to carry the ESP header and
trailer, whose SPI differs from the SPI of the current inbound context
but equals that of the previous, decryption with the previous context happens
iff `ntohl(peer_seq) + esp->seq < old_esp_maxseq`; when the sum equals
the ceiling the packet is dropped as invalid SPI and no decrypt call is
made at all. -/
theorem old_spi_admission_rule (espC espO : Esp) (maxseq : Nat) (state : DtlsState)
    (hcp : Bool) (rmtu : Nat) (d : Datagram)
    (hlen : 8 + 12 < d.recvLen) (hne : d.spi ≠ espC.spi) (heq : d.spi = espO.spi) :
    ((process_datagram espC espO maxseq state hcp rmtu d).decryptedWith
        = some CtxSel.old ↔ ntohl d.seq + espC.seq < maxseq) ∧
    (ntohl d.seq + espC.seq = maxseq →
      (process_datagram espC espO maxseq state hcp rmtu d).outcome
          = Outcome.dropInvalidSpi ∧
      (process_datagram espC espO maxseq state hcp rmtu d).decryptedWith = none) := by
  unfold process_datagram routeSpi
  rw [if_neg (by omega), if_neg hne]
  by_cases hlt : ntohl d.seq + espC.seq < maxseq
  · rw [if_pos ⟨heq, hlt⟩]
    constructor
    · show (espAfterRoute CtxSel.old state hcp rmtu (d.recvLen - (8 + 12)) d).decryptedWith
        = some CtxSel.old ↔ ntohl d.seq + espC.seq < maxseq
      simp [espAfterRoute_decryptedWith, hlt]
    · intro hm
      omega
  · rw [if_neg (fun hc => hlt hc.2)]
    constructor
    · show (none : Option CtxSel) = some CtxSel.old ↔ ntohl d.seq + espC.seq < maxseq
      simp [hlt]
    · intro hm
      exact ⟨rfl, rfl⟩

/-- Witness for C1: a packet 15 under the ceiling of 100 is decrypted
with the previous context; a packet summing exactly to the ceiling is
dropped as invalid SPI. -/
theorem old_spi_admission_rule_witness :
    (process_datagram espCex espOex 100 DtlsState.connected false 2048 dOldOk).decryptedWith
        = some CtxSel.old ∧
    (process_datagram espCex espOex 100 DtlsState.connected false 2048 dOldEdge).outcome
        = Outcome.dropInvalidSpi := by
  constructor
  · exact (old_spi_admission_rule espCex espOex 100 DtlsState.connected false 2048 dOldOk
      (by decide) (by decide) (by decide)).1.mpr (by decide)
  · exact ((old_spi_admission_rule espCex espOex 100 DtlsState.connected false 2048 dOldEdge
      (by decide) (by decide) (by decide)).2 (by decide)).1

theorem espAfterRoute_padLen (sel : CtxSel) (state : DtlsState) (hcp : Bool)
    (rmtu len : Nat) (d : Datagram) (hdec : d.decryptOk = true)
    (hnh : nextHdr d len = 0x04 ∨ nextHdr d len = 0x29 ∨ nextHdr d len = 0x05) :
    ((espAfterRoute sel state hcp rmtu len d).outcome = Outcome.dropBadPadLen ↔
      len ≤ padLenOf d len + 2) ∧
    (len ≤ padLenOf d len + 2 →
      (espAfterRoute sel state hcp rmtu len d).enqueuedLen = none) := by
  unfold espAfterRoute
  rw [if_neg (by simp [hdec]), if_neg (by rcases hnh with h | h | h <;> simp [h])]
  by_cases hp : len ≤ 2 + padLenOf d len
  · rw [if_pos hp]
    exact ⟨⟨fun _ => by omega, fun _ => rfl⟩, fun _ => rfl⟩
  · rw [if_neg hp]
    have hp2 : ¬(len ≤ padLenOf d len + 2) := by omega
    split_ifs <;> simp_all

theorem espAfterRoute_padBytes (sel : CtxSel) (state : DtlsState) (hcp : Bool)
    (rmtu len : Nat) (d : Datagram) (hdec : d.decryptOk = true)
    (hnh : nextHdr d len = 0x04 ∨ nextHdr d len = 0x29 ∨ nextHdr d len = 0x05)
    (hplen : padLenOf d len + 2 < len) :
    ((espAfterRoute sel state hcp rmtu len d).outcome = Outcome.dropBadPadBytes ↔
      ∃ i, i < padLenOf d len ∧ d.plaintext.getD (payloadLen d len + i) 0 ≠ i + 1) := by
  unfold espAfterRoute
  rw [if_neg (by simp [hdec]), if_neg (by rcases hnh with h | h | h <;> simp [h]),
      if_neg (by omega)]
  by_cases hpb : padBytesOk d.plaintext (payloadLen d len) (padLenOf d len) = false
  · rw [if_pos hpb]
    constructor
    · intro _
      have hpb2 : ¬ ∀ i, i < padLenOf d len →
          d.plaintext.getD (payloadLen d len + i) 0 = i + 1 := by
        rw [← padBytesOk_iff]
        simp [hpb]
      push_neg at hpb2
      exact hpb2
    · intro _
      rfl
  · rw [if_neg hpb]
    have hall : ∀ i, i < padLenOf d len →
        d.plaintext.getD (payloadLen d len + i) 0 = i + 1 := by
      rw [← padBytesOk_iff]
      simpa using hpb
    have hex : ¬ ∃ i, i < padLenOf d len ∧
        d.plaintext.getD (payloadLen d len + i) 0 ≠ i + 1 := by
      push_neg
      exact hall
    split_ifs <;> simp_all

theorem espAfterRoute_lzo (sel : CtxSel) (state : DtlsState) (hcp : Bool)
    (rmtu len : Nat) (d : Datagram) (hdec : d.decryptOk = true)
    (hnh5 : nextHdr d len = 0x05) (hplen : padLenOf d len + 2 < len)
    (hpb : padBytesOk d.plaintext (payloadLen d len) (padLenOf d len) = true)
    (hprobe : ¬(hcp = true ∧ d.isProbe = true)) (halloc : d.newpktAllocOk = true) :
    ((espAfterRoute sel state hcp rmtu len d).outcome = Outcome.enqueueDecompressed ↔
      (d.lzo.err = false ∧ d.lzo.residual = 0)) ∧
    ((espAfterRoute sel state hcp rmtu len d).outcome = Outcome.enqueueDecompressed →
      (espAfterRoute sel state hcp rmtu len d).enqueuedLen
        = some (rmtu - d.lzo.newlenOut)) ∧
    ((d.lzo.err = true ∨ d.lzo.residual ≠ 0) →
      (espAfterRoute sel state hcp rmtu len d).outcome = Outcome.dropLzoFail ∧
      (espAfterRoute sel state hcp rmtu len d).enqueuedLen = none ∧
      (espAfterRoute sel state hcp rmtu len d).newpktFreed = true) := by
  unfold espAfterRoute
  rw [if_neg (by simp [hdec]), if_neg (by simp [hnh5]), if_neg (by omega),
      if_neg (by simp [hpb]), if_neg hprobe, if_pos hnh5, if_neg (by simp [halloc])]
  by_cases hl : d.lzo.err = true ∨ d.lzo.residual ≠ 0
  · rw [if_pos hl]
    refine ⟨⟨fun h => by simp_all, fun hok => ?_⟩, fun h => by simp_all,
      fun _ => ⟨rfl, rfl, rfl⟩⟩
    rcases hl with he | hr
    · rw [hok.1] at he
      exact absurd he (by decide)
    · exact absurd hok.2 hr
  · rw [if_neg hl]
    push_neg at hl
    refine ⟨⟨fun _ => ?_, fun _ => rfl⟩, fun _ => rfl, fun hc => ?_⟩
    · exact ⟨by simpa using hl.1, hl.2⟩
    · rcases hc with he | hr
      · rw [he] at hl
        exact absurd hl.1 (by decide)
      · exact absurd hl.2 hr

/-- C4: for a successfully decrypted payload with an accepted Next-Header
byte, the packet is dropped as invalid padding length exactly when the
payload length is at most the padding-length byte plus 2, and such a
packet is never enqueued; only strictly longer payloads proceed. -/
theorem padding_length_validation (espC espO : Esp) (maxseq : Nat)
    (state : DtlsState) (hcp : Bool) (rmtu : Nat) (d : Datagram)
    (hlen : 8 + 12 < d.recvLen)
    (hroute : routeSpi d.spi d.seq espC espO maxseq ≠ Route.invalid)
    (hdec : d.decryptOk = true)
    (hnh : nextHdr d (d.recvLen - (8 + 12)) = 0x04 ∨
      nextHdr d (d.recvLen - (8 + 12)) = 0x29 ∨
      nextHdr d (d.recvLen - (8 + 12)) = 0x05) :
    ((process_datagram espC espO maxseq state hcp rmtu d).outcome
        = Outcome.dropBadPadLen ↔
      d.recvLen - (8 + 12) ≤ padLenOf d (d.recvLen - (8 + 12)) + 2) ∧
    (d.recvLen - (8 + 12) ≤ padLenOf d (d.recvLen - (8 + 12)) + 2 →
      (process_datagram espC espO maxseq state hcp rmtu d).enqueuedLen = none) := by
  unfold process_datagram
  rw [if_neg (by omega)]
  cases hr : routeSpi d.spi d.seq espC espO maxseq with
  | useCurrent => exact espAfterRoute_padLen CtxSel.current state hcp rmtu _ d hdec hnh
  | useOld => exact espAfterRoute_padLen CtxSel.old state hcp rmtu _ d hdec hnh
  | invalid => exact absurd hr hroute

/-- Witness for C4: payload length 4 with padding-length byte 9 is
dropped as invalid padding length and not enqueued. -/
theorem padding_length_validation_witness :
    (process_datagram espCex espOex 100 DtlsState.connected false 2048 dBadPadLen).outcome
        = Outcome.dropBadPadLen ∧
    (process_datagram espCex espOex 100 DtlsState.connected false 2048 dBadPadLen).enqueuedLen
        = none := by
  constructor
  · exact (padding_length_validation espCex espOex 100 DtlsState.connected false 2048
      dBadPadLen (by decide) (by decide) (by decide) (by decide)).1.mpr (by decide)
  · exact (padding_length_validation espCex espOex 100 DtlsState.connected false 2048
      dBadPadLen (by decide) (by decide) (by decide) (by decide)).2 (by decide)

/-- C5: for a payload that passed the padding-length bound, the packet is
dropped as invalid padding content exactly when some pad byte among the
`padding_length` bytes preceding the padding-length byte differs from its
expected value `i + 1`; with padding length 0 the check can never fail. -/
theorem padding_bytes_validation (espC espO : Esp) (maxseq : Nat)
    (state : DtlsState) (hcp : Bool) (rmtu : Nat) (d : Datagram)
    (hlen : 8 + 12 < d.recvLen)
    (hroute : routeSpi d.spi d.seq espC espO maxseq ≠ Route.invalid)
    (hdec : d.decryptOk = true)
    (hnh : nextHdr d (d.recvLen - (8 + 12)) = 0x04 ∨
      nextHdr d (d.recvLen - (8 + 12)) = 0x29 ∨
      nextHdr d (d.recvLen - (8 + 12)) = 0x05)
    (hplen : padLenOf d (d.recvLen - (8 + 12)) + 2 < d.recvLen - (8 + 12)) :
    ((process_datagram espC espO maxseq state hcp rmtu d).outcome
        = Outcome.dropBadPadBytes ↔
      ∃ i, i < padLenOf d (d.recvLen - (8 + 12)) ∧
        d.plaintext.getD (payloadLen d (d.recvLen - (8 + 12)) + i) 0 ≠ i + 1) ∧
    (padLenOf d (d.recvLen - (8 + 12)) = 0 →
      (process_datagram espC espO maxseq state hcp rmtu d).outcome
        ≠ Outcome.dropBadPadBytes) := by
  have hmain : (process_datagram espC espO maxseq state hcp rmtu d).outcome
      = Outcome.dropBadPadBytes ↔
      ∃ i, i < padLenOf d (d.recvLen - (8 + 12)) ∧
        d.plaintext.getD (payloadLen d (d.recvLen - (8 + 12)) + i) 0 ≠ i + 1 := by
    unfold process_datagram
    rw [if_neg (by omega)]
    cases hr : routeSpi d.spi d.seq espC espO maxseq with
    | useCurrent =>
      exact espAfterRoute_padBytes CtxSel.current state hcp rmtu _ d hdec hnh hplen
    | useOld =>
      exact espAfterRoute_padBytes CtxSel.old state hcp rmtu _ d hdec hnh hplen
    | invalid => exact absurd hr hroute
  refine ⟨hmain, fun h0 hcon => ?_⟩
  obtain ⟨i, hi, _⟩ := hmain.mp hcon
  omega

/-- Witness for C5: padding length 2 with pad bytes 9, 9 instead of 1, 2
is dropped as invalid padding content. -/
theorem padding_bytes_validation_witness :
    (process_datagram espCex espOex 100 DtlsState.connected false 2048 dBadPadBytes).outcome
        = Outcome.dropBadPadBytes := by
  exact (padding_bytes_validation espCex espOex 100 DtlsState.connected false 2048
    dBadPadBytes (by decide) (by decide) (by decide) (by decide) (by decide)).1.mpr
    ⟨0, by decide, by decide⟩

/-- Counterexample for C6: with a negotiated MTU of 1500, a successfully
decompressed packet of 2000 bytes (receive buffer 2048, 48 bytes of
output space left) is enqueued to the inbound queue even though it is
larger than the negotiated MTU — the code bounds the output only by the
receive buffer size `max(2048, mtu + 256)`, not by the MTU. -/
theorem lzo_mtu_counterexample :
    (esp_mainloop baseS envLzoBig 1000).s.incoming_queue = [2000] ∧
    baseS.mtu < 2000 := by
  constructor
  · rfl
  · decide

/-- C6 (amended): for a validated compressed (0x05) packet with a
successfully allocated output buffer, decompression succeeds exactly when
the adapter reports no error and leaves zero residual input; the enqueued
payload is then `receive_mtu - newlen`, which never exceeds the receive
buffer size `max(2048, mtu + 256)` (not the negotiated MTU itself); on an
adapter error or nonzero residual the packet is dropped, nothing is
enqueued, and the fresh output buffer is freed. -/
theorem lzo_dispatch_semantics (espC espO : Esp) (maxseq : Nat)
    (state : DtlsState) (hcp : Bool) (mtu : Nat) (d : Datagram)
    (hlen : 8 + 12 < d.recvLen)
    (hroute : routeSpi d.spi d.seq espC espO maxseq ≠ Route.invalid)
    (hdec : d.decryptOk = true)
    (hnh5 : nextHdr d (d.recvLen - (8 + 12)) = 0x05)
    (hplen : padLenOf d (d.recvLen - (8 + 12)) + 2 < d.recvLen - (8 + 12))
    (hpb : padBytesOk d.plaintext (payloadLen d (d.recvLen - (8 + 12)))
      (padLenOf d (d.recvLen - (8 + 12))) = true)
    (hprobe : ¬(hcp = true ∧ d.isProbe = true))
    (halloc : d.newpktAllocOk = true) :
    ((process_datagram espC espO maxseq state hcp (max 2048 (mtu + 256)) d).outcome
        = Outcome.enqueueDecompressed ↔
      (d.lzo.err = false ∧ d.lzo.residual = 0)) ∧
    ((process_datagram espC espO maxseq state hcp (max 2048 (mtu + 256)) d).outcome
        = Outcome.enqueueDecompressed →
      (process_datagram espC espO maxseq state hcp (max 2048 (mtu + 256)) d).enqueuedLen
        = some (max 2048 (mtu + 256) - d.lzo.newlenOut) ∧
      max 2048 (mtu + 256) - d.lzo.newlenOut ≤ max 2048 (mtu + 256)) ∧
    ((d.lzo.err = true ∨ d.lzo.residual ≠ 0) →
      (process_datagram espC espO maxseq state hcp (max 2048 (mtu + 256)) d).outcome
        = Outcome.dropLzoFail ∧
      (process_datagram espC espO maxseq state hcp (max 2048 (mtu + 256)) d).enqueuedLen
        = none ∧
      (process_datagram espC espO maxseq state hcp (max 2048 (mtu + 256)) d).newpktFreed
        = true) := by
  unfold process_datagram
  rw [if_neg (by omega)]
  cases hr : routeSpi d.spi d.seq espC espO maxseq with
  | useCurrent =>
    have h := espAfterRoute_lzo CtxSel.current state hcp (max 2048 (mtu + 256))
      (d.recvLen - (8 + 12)) d hdec hnh5 hplen hpb hprobe halloc
    exact ⟨h.1, fun hok => ⟨h.2.1 hok, Nat.sub_le _ _⟩, h.2.2⟩
  | useOld =>
    have h := espAfterRoute_lzo CtxSel.old state hcp (max 2048 (mtu + 256))
      (d.recvLen - (8 + 12)) d hdec hnh5 hplen hpb hprobe halloc
    exact ⟨h.1, fun hok => ⟨h.2.1 hok, Nat.sub_le _ _⟩, h.2.2⟩
  | invalid => exact absurd hr hroute

/-- Witness for C6 (amended) at the concrete oversized-decompression
datagram with MTU 1500. -/
theorem lzo_dispatch_semantics_witness :
    (process_datagram espCex espOex 100 DtlsState.connected false
        (max 2048 (1500 + 256)) dLzoBig).outcome = Outcome.enqueueDecompressed ∧
    (process_datagram espCex espOex 100 DtlsState.connected false
        (max 2048 (1500 + 256)) dLzoBig).enqueuedLen = some 2000 := by
  have h := lzo_dispatch_semantics espCex espOex 100 DtlsState.connected false 1500
    dLzoBig (by decide) (by decide) (by decide) (by decide) (by decide) (by decide)
    (by decide) (by decide)
  have hok := h.1.mpr (by decide)
  exact ⟨hok, by
    have := (h.2.1 hok).1
    simpa using this⟩

/-- C3: when a send hits would-block backpressure, the transmit drain of
`esp_mainloop` arms write-readiness monitoring and returns immediately:
the remaining outbound queue is left exactly in place, the dequeued
packet is freed (not requeued, not sent), and nothing else is touched.
The first conjunct characterises the drain at the exact moment of the
backpressure, for any position and any accumulated state; the second
states the effect through a full `esp_mainloop` call whose first send
blocks. -/
theorem tx_wouldblock_backpressure :
    (∀ (env : Nat → TxIter) (k p : Nat) (rest : List Nat) (st : TxSt),
      0 < (env k).encLen → (env k).send = SendResult.wouldBlock →
      txDrain env k (p :: rest) st = txBlocked st p rest) ∧
    (∀ (s : Session) (env : Env) (tmo : Int) (p : Nat) (rest : List Nat),
      s.dtls_fd ≠ -1 → s.dtls_state = DtlsState.connected →
      env.kaAction ≠ KaAction.dpdDead → s.outgoing_queue = p :: rest →
      0 < (env.txIters 0).encLen → (env.txIters 0).send = SendResult.wouldBlock →
      ((esp_mainloop s env tmo).s.outgoing_queue = rest ∧
        (esp_mainloop s env tmo).s.monitorWriteDtls = true ∧
        (esp_mainloop s env tmo).sent = [] ∧
        (esp_mainloop s env tmo).freed = [p] ∧
        (esp_mainloop s env tmo).earlyWouldBlock = true)) := by
  have h1 : ∀ (env : Nat → TxIter) (k p : Nat) (rest : List Nat) (st : TxSt),
      0 < (env k).encLen → (env k).send = SendResult.wouldBlock →
      txDrain env k (p :: rest) st = txBlocked st p rest := by
    intro env k p rest st henc hsend
    rw [txDrain, if_pos henc, hsend]
  refine ⟨h1, ?_⟩
  intro s env tmo p rest hfd hst hka hq henc hsend
  have hconn : (espRxPhase s env).s.dtls_state = DtlsState.connected :=
    rxDrain_connected _ _ _ _ hst
  have hqx : (espRxPhase s env).s.outgoing_queue = p :: rest := by
    have hfr : (espRxPhase s env).s.outgoing_queue = s.outgoing_queue :=
      (rxDrain_frame (max 2048 (s.mtu + 256)) env.now env.rxIters (initRxSt s)).1
    rw [hfr, hq]
  have htx : espTxPhase s env
      = txBlocked (initTxSt ((espRxPhase s env).workDone || espKaWork env)) p rest := by
    unfold espTxPhase
    rw [hqx]
    exact h1 env.txIters 0 p rest _ henc hsend
  unfold esp_mainloop
  rw [if_neg hfd, if_neg (fun hne => hne hconn), if_neg hka]
  refine ⟨?_, ?_, ?_, ?_, ?_⟩
  · show (espTxPhase s env).queueLeft = rest
    rw [htx]
    rfl
  · show (espTxPhase s env).monitorWrite = true
    rw [htx]
    rfl
  · show (espTxPhase s env).sent = []
    rw [htx]
    rfl
  · show (espTxPhase s env).freed = [p]
    rw [htx]
    rfl
  · show (espTxPhase s env).earlyWouldBlock = true
    rw [htx]
    rfl

/-- Witness for C3: a drain whose first send blocks, standalone and
through `esp_mainloop` on a connected session with queue `[42, 43]`. -/
theorem tx_wouldblock_backpressure_witness :
    txDrain txBlock 0 [42, 43] (initTxSt false) = txBlocked (initTxSt false) 42 [43] ∧
    (esp_mainloop sQueue envBlock 1000).s.outgoing_queue = [43] ∧
    (esp_mainloop sQueue envBlock 1000).freed = [42] := by
  have h := tx_wouldblock_backpressure
  refine ⟨h.1 txBlock 0 42 [43] (initTxSt false) (by decide) (by decide), ?_, ?_⟩
  · exact (h.2 sQueue envBlock 1000 42 [43] (by decide) (by decide) (by decide)
      (by decide) (by decide) (by decide)).1
  · exact (h.2 sQueue envBlock 1000 42 [43] (by decide) (by decide) (by decide)
      (by decide) (by decide) (by decide)).2.2.2.1

/-- Counterexample for C2: a Connecting session receives one (short)
datagram — work is performed and the receive-work flag is set — yet
`esp_mainloop` returns 0, because the `DTLS_CONNECTED` gate after the
receive drain discards the work flag. -/
theorem mainloop_return_counterexample :
    (esp_mainloop sConnecting envShort 1000).ret = 0 ∧
    (esp_mainloop sConnecting envShort 1000).recvDatagrams = 1 := by
  exact ⟨rfl, rfl⟩

/-- C2 (amended): the return value of `esp_mainloop` reports work only
from a Connected session: if `dtls_state` after the receive drain is not
`DTLS_CONNECTED` the call returns 0 even when datagrams were received; on
a dead-peer verdict it returns 1 unconditionally; otherwise it returns
nonzero exactly when a datagram was received, a DPD probe fired, or an
outbound packet was processed to completion (a packet discarded on
would-block backpressure does not by itself count). -/
theorem mainloop_return_semantics (s : Session) (env : Env) (tmo : Int)
    (hfd : s.dtls_fd ≠ -1) :
    ((espRxPhase s env).s.dtls_state ≠ DtlsState.connected →
      (esp_mainloop s env tmo).ret = 0) ∧
    ((espRxPhase s env).s.dtls_state = DtlsState.connected →
      env.kaAction = KaAction.dpdDead → (esp_mainloop s env tmo).ret = 1) ∧
    ((espRxPhase s env).s.dtls_state = DtlsState.connected →
      env.kaAction ≠ KaAction.dpdDead →
      ((esp_mainloop s env tmo).ret ≠ 0 ↔
        (0 < (esp_mainloop s env tmo).recvDatagrams ∨
          env.kaAction = KaAction.dpd ∨
          0 < (esp_mainloop s env tmo).completed))) := by
  refine ⟨fun hne => ?_, fun hconn hka => ?_, fun hconn hka => ?_⟩
  · unfold esp_mainloop
    rw [if_neg hfd, if_pos hne]
    rfl
  · unfold esp_mainloop
    rw [if_neg hfd, if_neg (fun h => h hconn), if_pos hka]
    rfl
  · unfold esp_mainloop
    rw [if_neg hfd, if_neg (fun h => h hconn), if_neg hka]
    show ((if (espTxPhase s env).workDone then (1 : Int) else 0) ≠ 0 ↔
      (0 < (espRxPhase s env).recvDatagrams ∨ env.kaAction = KaAction.dpd ∨
        0 < (espTxPhase s env).completed))
    have h1 : ((if (espTxPhase s env).workDone then (1 : Int) else 0) ≠ 0) ↔
        (espTxPhase s env).workDone = true := by
      cases h : (espTxPhase s env).workDone <;> simp
    rw [h1]
    have h2x : (espTxPhase s env).workDone = true ↔
        (((espRxPhase s env).workDone || espKaWork env) = true ∨
          0 < (espTxPhase s env).completed) :=
      txDrain_workDone_iff env.txIters (espRxPhase s env).s.outgoing_queue 0
        (initTxSt ((espRxPhase s env).workDone || espKaWork env))
    have h3x : (espRxPhase s env).workDone = true ↔
        (false = true ∨ 0 < (espRxPhase s env).recvDatagrams) :=
      rxDrain_workDone_iff (max 2048 (s.mtu + 256)) env.now env.rxIters (initRxSt s)
    have h4 : espKaWork env = true ↔ env.kaAction = KaAction.dpd := by
      unfold espKaWork
      split_ifs with h <;> simp [h]
    rw [h2x, Bool.or_eq_true, h3x, h4]
    constructor
    · intro hc
      rcases hc with ((hf | hr) | hk) | hcp2
      · exact absurd hf (by decide)
      · exact Or.inl hr
      · exact Or.inr (Or.inl hk)
      · exact Or.inr (Or.inr hcp2)
    · intro hc
      rcases hc with hr | hk | hcp2
      · exact Or.inl (Or.inl (Or.inr hr))
      · exact Or.inl (Or.inr hk)
      · exact Or.inr hcp2

/-- Witness for C2 (amended) on an idle connected session: no datagrams,
no keepalive action, empty queue, so the call reports no work. -/
theorem mainloop_return_semantics_witness :
    ((esp_mainloop baseS envIdle 5).ret ≠ 0 ↔
      (0 < (esp_mainloop baseS envIdle 5).recvDatagrams ∨
        envIdle.kaAction = KaAction.dpd ∨
        0 < (esp_mainloop baseS envIdle 5).completed)) := by
  exact (mainloop_return_semantics baseS envIdle 5 (by decide)).2.2 (by decide) (by decide)
